import Mathlib

/-!
Verification of the adf-to-tiff-converter repository.

The repository delegates real ADF decoding and GeoTIFF encoding to the external
GDAL.js library. The in-repo logic that is embeddable consists of:

* `SimpleAdfReader` (converter.js): the fallback converter. `parseAdfFiles`
  stores each uploaded file in a dictionary keyed by its lowercased name,
  throws the error "Missing hdr.adf file" when the key hdr.adf is absent, and
  otherwise returns `createSimpleTiff()`, which builds a fixed little-endian
  TIFF: an 8-byte header, one 12-entry IFD, and 512 x 512 pixel bytes each
  drawn from Math.random() * 255.
* `AdfToTiffConverter.convertAdfToTiff` (converter.js): the GDAL path. Its
  outcome depends on the external library, so it is modelled here as an
  `Except String (List Nat)` parameter; its gdal_translate option list
  `translateOptions` is embedded literally.
* `processAdfFiles` and `convertToTiff` (app.js): the pipeline. It tries the
  GDAL converter first and, when that fails, falls back to `SimpleAdfReader`;
  only when both fail does it surface a combined error message. The result is
  stored in the module-global `convertedBlob`, and inputs come from the
  module-global `uploadedFiles`; these globals are modelled as `AppState`.

Bytes are modelled as `List Nat` with values kept below 256 by the explicit
mod-256 of typed-array stores. The sequence of Math.random() draws of one run
is modelled as an oracle stream `rng : Nat → Nat`.
-/

set_option maxRecDepth 100000

namespace AdfTiff

/-- One uploaded file of an ADF dataset: its name and raw byte contents. -/
structure NamedFile where
  name : String
  data : List Nat
deriving DecidableEq

/-- JavaScript toLowerCase applied to a file name: every character lowercased.
Defined over the character list of the string (structurally, so that it
evaluates inside the kernel; core String.toLower is the same map but defined
by well-founded recursion over byte positions). -/
def lowerName (s : String) : String :=
  ⟨s.data.map Char.toLower⟩

/-- Little-endian byte encoding of a 16-bit value, as DataView.setUint16 with
littleEndian = true: the value is first reduced to 16 bits. -/
def u16le (v : Nat) : List Nat :=
  [v % 2 ^ 16 % 256, v % 2 ^ 16 / 256]

/-- Little-endian byte encoding of a 32-bit value, as DataView.setUint32 with
littleEndian = true: the value is first reduced to 32 bits. -/
def u32le (v : Nat) : List Nat :=
  [v % 2 ^ 32 % 256, v % 2 ^ 32 / 256 % 256, v % 2 ^ 32 / 256 ^ 2 % 256,
   v % 2 ^ 32 / 256 ^ 3 % 256]

/-- One IFD (Image File Directory) entry: tag, field type, count, value. -/
structure IfdEntry where
  tag : Nat
  fieldType : Nat
  count : Nat
  value : Nat
deriving DecidableEq

/-- SimpleAdfReader.writeIfdEntry: one entry serialized as 12 little-endian
bytes (u16 tag, u16 type, u32 count, u32 value). -/
def writeIfdEntry (e : IfdEntry) : List Nat :=
  u16le e.tag ++ u16le e.fieldType ++ u32le e.count ++ u32le e.value

/-- Default width used by createSimpleTiff. -/
def width : Nat := 512

/-- Default height used by createSimpleTiff. -/
def height : Nat := 512

/-- samplesPerPixel constant of createSimpleTiff. -/
def samplesPerPixel : Nat := 1

/-- bitsPerSample constant of createSimpleTiff. -/
def bitsPerSample : Nat := 8

/-- The entry count (named ifdEntries in createSimpleTiff). -/
def ifdEntryCount : Nat := 12

/-- ifdSize = 2 + ifdEntries * 12 + 4 in createSimpleTiff. -/
def ifdSize : Nat := 2 + ifdEntryCount * 12 + 4

/-- The 8-byte TIFF header written by createSimpleTiff: marker 0x4949 (II,
little-endian byte order), magic 42, offset 8 to the first IFD. -/
def tiffHeader : List Nat :=
  u16le 0x4949 ++ u16le 42 ++ u32le 8

/-- The placeholder pixel bytes of createSimpleTiff: the loop sets
imageData[i] = Math.random() * 255 for every i below width * height. The
random draw of step i is modelled by rng i; the store into the Uint8Array
keeps the low byte, hence the mod 256. No input file is consulted. -/
def imageData (rng : Nat → Nat) : List Nat :=
  (List.range (width * height)).map fun i => rng i % 256

/-- The 12 IFD entries of createSimpleTiff, in the order they are written:
ImageWidth, ImageHeight, BitsPerSample, Compression (1 = none),
PhotometricInterpretation, StripOffsets, SamplesPerPixel, RowsPerStrip,
StripByteCounts, XResolution, YResolution, ResolutionUnit. -/
def simpleIfdEntries : List IfdEntry :=
  [⟨256, 3, 1, width⟩,
   ⟨257, 3, 1, height⟩,
   ⟨258, 3, 1, bitsPerSample⟩,
   ⟨259, 3, 1, 1⟩,
   ⟨262, 3, 1, 1⟩,
   ⟨273, 4, 1, 8 + ifdSize⟩,
   ⟨277, 3, 1, samplesPerPixel⟩,
   ⟨278, 3, 1, height⟩,
   ⟨279, 4, 1, width * height⟩,
   ⟨282, 5, 1, 72⟩,
   ⟨283, 5, 1, 72⟩,
   ⟨296, 3, 1, 2⟩]

/-- The serialized IFD: the u16 entry count, the 12 serialized entries, then
the u32 next-IFD offset 0. -/
def ifdBytes : List Nat :=
  u16le ifdEntryCount ++ (simpleIfdEntries.map writeIfdEntry).flatten ++ u32le 0

/-- SimpleAdfReader.createSimpleTiff: the concatenation written into tiffBuffer,
header then IFD then pixel data. -/
def createSimpleTiff (rng : Nat → Nat) : List Nat :=
  tiffHeader ++ ifdBytes ++ imageData rng

/-- Whether the file dictionary of SimpleAdfReader, keyed by lowercased file
names, holds the key hdr.adf. -/
def hasHdr (files : List NamedFile) : Bool :=
  files.any fun f => lowerName f.name == "hdr.adf"

/-- SimpleAdfReader.parseAdfFiles: reads every file into the dictionary keyed
by lowercased name, throws "Missing hdr.adf file" when the key hdr.adf is
absent, and otherwise returns createSimpleTiff. The stream rng stands for the
Math.random() draws of this run. -/
def parseAdfFiles (files : List NamedFile) (rng : Nat → Nat) :
    Except String (List Nat) :=
  if hasHdr files then Except.ok (createSimpleTiff rng)
  else Except.error "Missing hdr.adf file"

/-- Output path used by AdfToTiffConverter.convertAdfToTiff. -/
def outputPath : String := "/output.tif"

/-- The gdal_translate option list of AdfToTiffConverter.convertAdfToTiff:
GeoTIFF output, LZW compression, tiling, BigTIFF when needed. -/
def translateOptions : List String :=
  ["-of", "GTiff", "-co", "COMPRESS=LZW", "-co", "TILED=YES",
   "-co", "BIGTIFF=IF_NEEDED", outputPath]

/-- The combined message thrown by processAdfFiles when the GDAL path and the
fallback both fail. -/
def failMsg (gdalError fallbackError : String) : String :=
  "Failed to convert ADF to TIFF. GDAL error: " ++ gdalError ++
  ". Fallback error: " ++ fallbackError ++
  ". Please ensure you have uploaded all ADF files from the dataset."

/-- processAdfFiles (app.js): tries the GDAL converter first; on a GDAL error
it falls back to SimpleAdfReader.parseAdfFiles; when both fail it throws the
combined message. The outcome of the external GDAL conversion is the
parameter gdalResult. -/
def processAdfFiles (gdalResult : Except String (List Nat))
    (files : List NamedFile) (rng : Nat → Nat) : Except String (List Nat) :=
  match gdalResult with
  | Except.ok blob => Except.ok blob
  | Except.error gdalError =>
    match parseAdfFiles files rng with
    | Except.ok blob => Except.ok blob
    | Except.error fallbackError => Except.error (failMsg gdalError fallbackError)

/-- The module-global mutable state of app.js: uploadedFiles and
convertedBlob are shared by every conversion run. -/
structure AppState where
  uploadedFiles : List NamedFile
  convertedBlob : Option (List Nat)
deriving DecidableEq

/-- convertToTiff (app.js): checks that some uploaded file is named hdr.adf
(case-insensitively), runs processAdfFiles on the shared uploadedFiles, and on
success stores the blob in the shared convertedBlob; on any error the stored
blob is left as it was and the error is shown. -/
def convertToTiff (s : AppState) (gdalResult : Except String (List Nat))
    (rng : Nat → Nat) : AppState :=
  if hasHdr s.uploadedFiles then
    match processAdfFiles gdalResult s.uploadedFiles rng with
    | Except.ok blob => ⟨s.uploadedFiles, some blob⟩
    | Except.error _ => s
  else s

/-- The raw bytes of the primary raster-data file of a dataset (w001001.adf in
the ArcInfo grid layout), or [] when absent. Used only to state claims about
raster content. -/
def rasterBytes (files : List NamedFile) : List Nat :=
  ((files.find? fun f => lowerName f.name == "w001001.adf").map NamedFile.data).getD []

/-- Modelled from the spec: no readProjection exists in src/ (projection
handling is delegated to the external GDAL library). Section 4.1: parses the
optional projection file, here the bytes of prj.adf, and returns null (not an
error) when it is absent. -/
def readProjection (files : List NamedFile) : Option (List Nat) :=
  (files.find? fun f => lowerName f.name == "prj.adf").map NamedFile.data

/-- A conversion result paired with the spatial reference reported to the
caller; spatialRef = none means unset. -/
structure ConvResult where
  tiff : List Nat
  spatialRef : Option (List Nat)
deriving DecidableEq

/-- Modelled from the spec: the full open-and-convert operation returning the
output and the reported SpatialReference. The conversion itself is the in-repo
fallback; the spatial reference is readProjection, passed through unchanged
and never defaulted. -/
def convertDataset (files : List NamedFile) (rng : Nat → Nat) :
    Except String ConvResult :=
  match parseAdfFiles files rng with
  | Except.ok t => Except.ok ⟨t, readProjection files⟩
  | Except.error e => Except.error e

/-- A run whose Math.random() draws all come out 0. -/
def rngZ : Nat → Nat := fun _ => 0

/-- A run whose Math.random() draws all come out as 1/255, i.e. byte 1. -/
def rngOne : Nat → Nat := fun _ => 1

/-- A dataset with a header file and one raster-data file. -/
def fsHdr : List NamedFile :=
  [⟨"hdr.adf", [0, 1, 2]⟩, ⟨"w001001.adf", [1, 2, 3]⟩]

/-- The same dataset with different raster-data bytes. -/
def fsHdrB : List NamedFile :=
  [⟨"hdr.adf", [0, 1, 2]⟩, ⟨"w001001.adf", [9, 9, 9]⟩]

/-- A dataset holding only the header file, no raster-data file. -/
def fsHdrOnly : List NamedFile :=
  [⟨"hdr.adf", [0]⟩]

example : hasHdr fsHdr = true := by decide
example : hasHdr [⟨"HDR.ADF", []⟩] = true := by decide
example : hasHdr [⟨"w001001.adf", []⟩] = false := by decide
example : tiffHeader = [73, 73, 42, 0, 8, 0, 0, 0] := by decide
example : ifdBytes.length = 150 := by decide
example : ifdBytes.take 2 = [12, 0] := by decide

theorem header_ifd_len : (tiffHeader ++ ifdBytes).length = 158 := by decide

theorem createSimpleTiff_assoc (rng : Nat → Nat) :
    createSimpleTiff rng = (tiffHeader ++ ifdBytes) ++ imageData rng := rfl

theorem createSimpleTiff_drop158 (rng : Nat → Nat) :
    (createSimpleTiff rng).drop 158 = imageData rng := by
  rw [createSimpleTiff_assoc, ← header_ifd_len, List.drop_left]

theorem createSimpleTiff_take8 (rng : Nat → Nat) :
    (createSimpleTiff rng).take 8 = tiffHeader := by
  have h : tiffHeader.length = 8 := by decide
  rw [createSimpleTiff, List.append_assoc, ← h, List.take_left]

theorem imageData_length (rng : Nat → Nat) :
    (imageData rng).length = width * height := by
  simp [imageData]

theorem createSimpleTiff_length (rng : Nat → Nat) :
    (createSimpleTiff rng).length = 262302 := by
  have h := imageData_length rng
  have h1 : tiffHeader.length = 8 := by decide
  have h2 : ifdBytes.length = 150 := by decide
  simp [createSimpleTiff_assoc, List.length_append, h, h1, h2, width, height]

theorem imageData_head (rng : Nat → Nat) :
    (imageData rng)[0]? = some (rng 0 % 256) := by
  have h : 0 < width * height := by decide
  simp [imageData, List.getElem?_map, List.getElem?_range, h]

theorem createSimpleTiff_get158 (rng : Nat → Nat) :
    (createSimpleTiff rng)[158]? = some (rng 0 % 256) := by
  have h := List.getElem?_drop (createSimpleTiff rng) 158 0
  rw [createSimpleTiff_drop158 rng] at h
  simpa [imageData_head rng] using h.symm

theorem parse_ok {files : List NamedFile} (rng : Nat → Nat)
    (h : hasHdr files = true) :
    parseAdfFiles files rng = Except.ok (createSimpleTiff rng) := by
  simp [parseAdfFiles, h]

theorem parse_missing {files : List NamedFile} (rng : Nat → Nat)
    (h : hasHdr files = false) :
    parseAdfFiles files rng = Except.error "Missing hdr.adf file" := by
  simp [parseAdfFiles, h]

theorem hasHdr_iff (files : List NamedFile) :
    hasHdr files = true ↔ ∃ f ∈ files, lowerName f.name = "hdr.adf" := by
  simp [hasHdr]

/-- C1: the fallback converter performs no parsing of the ADF raster contents:
for any two file sets it accepts (each holding a hdr.adf entry) and one run of
random draws, parseAdfFiles returns one and the same output, namely the fixed
512 x 512 placeholder whose pixel bytes (following the 158 bytes of header
and IFD) are exactly the random draws, independent of the bytes of every
input file. -/
theorem c1_fallback_placeholder_independent (fs fs' : List NamedFile)
    (rng : Nat → Nat) (h : hasHdr fs = true) (h' : hasHdr fs' = true) :
    parseAdfFiles fs rng = parseAdfFiles fs' rng ∧
    parseAdfFiles fs rng = Except.ok (createSimpleTiff rng) ∧
    (createSimpleTiff rng).drop 158 = imageData rng ∧
    (imageData rng).length = width * height ∧
    width = 512 ∧ height = 512 :=
  ⟨by rw [parse_ok rng h, parse_ok rng h'], parse_ok rng h,
   createSimpleTiff_drop158 rng, imageData_length rng, rfl, rfl⟩

/-- C1 witness: two concrete datasets whose raster-data bytes differ. -/
theorem c1_witness :
    hasHdr fsHdr = true ∧ hasHdr fsHdrB = true ∧
    (parseAdfFiles fsHdr rngZ = parseAdfFiles fsHdrB rngZ ∧
     parseAdfFiles fsHdr rngZ = Except.ok (createSimpleTiff rngZ) ∧
     (createSimpleTiff rngZ).drop 158 = imageData rngZ ∧
     (imageData rngZ).length = width * height ∧
     width = 512 ∧ height = 512) :=
  ⟨by decide, by decide,
   c1_fallback_placeholder_independent fsHdr fsHdrB rngZ (by decide) (by decide)⟩

/-- C2 counterexample: a job whose decode stage (the GDAL converter) fails is
nevertheless completed: processAdfFiles swallows the GDAL error and returns
the 262302-byte substitute output of the fallback converter, so the failed
job is finished by a different converter and its output is exposed. -/
theorem c2_counterexample :
    processAdfFiles (Except.error "GDAL conversion failed: boom") fsHdr rngZ =
      Except.ok (createSimpleTiff rngZ) ∧
    (createSimpleTiff rngZ).length = 262302 :=
  ⟨rfl, createSimpleTiff_length rngZ⟩

/-- C2 amended: on a decode (GDAL) failure the job is not aborted: the
pipeline silently retries with the fallback converter and succeeds with its
placeholder whenever a hdr.adf file is present; only when the fallback also
fails does it surface an error, and that error is a combined message holding
both stage errors, not the first error alone. -/
theorem c2_gdal_failure_falls_back (g : Except String (List Nat))
    (fs : List NamedFile) (rng : Nat → Nat) (ge : String)
    (h : g = Except.error ge) :
    processAdfFiles g fs rng =
      if hasHdr fs then Except.ok (createSimpleTiff rng)
      else Except.error (failMsg ge "Missing hdr.adf file") := by
  subst h
  cases hb : hasHdr fs with
  | true => simp [processAdfFiles, parse_ok rng hb, hb]
  | false => simp [processAdfFiles, parse_missing rng hb, hb]

/-- C2 witness: a concrete GDAL failure over a dataset with a header file. -/
theorem c2_witness :
    (Except.error "boom" : Except String (List Nat)) = Except.error "boom" ∧
    processAdfFiles (Except.error "boom") fsHdr rngZ =
      (if hasHdr fsHdr then Except.ok (createSimpleTiff rngZ)
       else Except.error (failMsg "boom" "Missing hdr.adf file")) :=
  ⟨rfl, c2_gdal_failure_falls_back (Except.error "boom") fsHdr rngZ "boom" rfl⟩

/-- C3 counterexample: a dataset holding only the header file and no
raster-data file is accepted: parseAdfFiles succeeds, so absence of a
raster-data file causes no MissingRequiredFile failure. -/
theorem c3_counterexample :
    (fsHdrOnly.all fun f => lowerName f.name == "hdr.adf") = true ∧
    parseAdfFiles fsHdrOnly rngZ = Except.ok (createSimpleTiff rngZ) :=
  ⟨by decide, parse_ok rngZ (by decide)⟩

/-- C3 amended: only the header file is required: for every file set,
conversion succeeds whenever some file is named hdr.adf under any letter case
(even with no raster-data file at all, and whatever every file contains), and
whenever no such file is present the call fails with the plain error string
"Missing hdr.adf file" (there is no MissingRequiredFile error kind); the
check looks only at file names, never at file contents. -/
theorem c3_only_header_required (fs : List NamedFile) (rng : Nat → Nat) :
    (hasHdr fs = true → (parseAdfFiles fs rng).isOk = true) ∧
    (hasHdr fs = false →
      parseAdfFiles fs rng = Except.error "Missing hdr.adf file") := by
  constructor
  · intro h
    rw [parse_ok rng h]
    rfl
  · intro h
    exact parse_missing rng h

/-- C3 witness: both branches at concrete datasets: the header-only dataset
(no raster-data file) succeeds, and a dataset holding a raster-data file but
no header fails with the plain error string. -/
theorem c3_witness :
    (hasHdr fsHdrOnly = true ∧ (parseAdfFiles fsHdrOnly rngZ).isOk = true) ∧
    (hasHdr [⟨"w001001.adf", [1]⟩] = false ∧
     parseAdfFiles [⟨"w001001.adf", [1]⟩] rngZ =
       Except.error "Missing hdr.adf file") :=
  ⟨⟨by decide, (c3_only_header_required fsHdrOnly rngZ).1 (by decide)⟩,
   ⟨by decide, (c3_only_header_required [⟨"w001001.adf", [1]⟩] rngZ).2 (by decide)⟩⟩

/-- C4 counterexample: a successful conversion (the GDAL stage failed, the
fallback succeeded) whose output is createSimpleTiff; that output declares
Compression 1 (none), not the configured LZW, and its IFD holds no tiling
entries (tags 322, 323, 324, 325) and no GeoTIFF entries (tags 33550, 33922,
34264, 34735, 34736, 34737). -/
theorem c4_counterexample :
    processAdfFiles (Except.error "gdal failed") fsHdr rngZ =
      Except.ok (createSimpleTiff rngZ) ∧
    (simpleIfdEntries.any fun e => e.tag == 259 && e.value == 1) = true ∧
    (simpleIfdEntries.all fun e =>
      !([322, 323, 324, 325, 33550, 33922, 34264, 34735, 34736,
         34737].contains e.tag)) = true :=
  ⟨rfl, by decide, by decide⟩

/-- C4 amended: the GDAL path requests a GeoTIFF with LZW compression, tiling
and BigTIFF when needed (translateOptions), but a fallback conversion returns
a plain baseline TIFF: little-endian (header II, 42), Compression 1 = none,
strip-organized (StripOffsets present, no tile tags) and bare of GeoTIFF
tags; of the claim, only the little-endian TIFF shape holds of the fallback
output. -/
theorem c4_fallback_plain_tiff (rng : Nat → Nat) :
    translateOptions.contains "COMPRESS=LZW" = true ∧
    translateOptions.contains "TILED=YES" = true ∧
    translateOptions.contains "BIGTIFF=IF_NEEDED" = true ∧
    (createSimpleTiff rng).take 8 = [73, 73, 42, 0, 8, 0, 0, 0] ∧
    (simpleIfdEntries.any fun e => e.tag == 259 && e.value == 1) = true ∧
    (simpleIfdEntries.any fun e => e.tag == 273) = true ∧
    (simpleIfdEntries.all fun e =>
      !([322, 323, 324, 325, 33550, 33922, 34264, 34735, 34736,
         34737].contains e.tag)) = true := by
  refine ⟨by decide, by decide, by decide, ?_, by decide, by decide, by decide⟩
  rw [createSimpleTiff_take8]
  decide

/-- C5 counterexample: two datasets whose raster-data files differ byte for
byte are sent to identical outputs, so the conversion output does not
determine the input raster and the round-trip identity fails on this code. -/
theorem c5_counterexample :
    rasterBytes fsHdr = [1, 2, 3] ∧ rasterBytes fsHdrB = [9, 9, 9] ∧
    parseAdfFiles fsHdr rngZ = parseAdfFiles fsHdrB rngZ := by
  refine ⟨by decide, by decide, ?_⟩
  rw [parse_ok rngZ (by decide), parse_ok rngZ (by decide)]

/-- C5 amended: the round-trip property fails for the conversion in the code:
whatever decoding function one chooses, there is a valid dataset on which
decoding the conversion output does not reproduce its raster bytes, because
the output carries no information about them. -/
theorem c5_no_roundtrip (dec : List Nat → List Nat) :
    ∃ fs out, hasHdr fs = true ∧ parseAdfFiles fs rngZ = Except.ok out ∧
      dec out ≠ rasterBytes fs := by
  by_cases h : dec (createSimpleTiff rngZ) = [1, 2, 3]
  · refine ⟨fsHdrB, createSimpleTiff rngZ, by decide, parse_ok rngZ (by decide), ?_⟩
    rw [h]
    decide
  · refine ⟨fsHdr, createSimpleTiff rngZ, by decide, parse_ok rngZ (by decide), ?_⟩
    rw [show rasterBytes fsHdr = [1, 2, 3] from by decide]
    exact h

/-- C6: with readProjection modelled from the spec, a dataset with no
projection file yields none (not an error), its conversion still succeeds and
the SpatialReference reported with the result is unset. -/
theorem c6_missing_projection (fs : List NamedFile) (rng : Nat → Nat)
    (hp : (fs.all fun f => !(lowerName f.name == "prj.adf")) = true)
    (hh : hasHdr fs = true) :
    readProjection fs = none ∧
    convertDataset fs rng = Except.ok ⟨createSimpleTiff rng, none⟩ := by
  have hfind : (fs.find? fun f => lowerName f.name == "prj.adf") = none := by
    rw [List.find?_eq_none]
    intro x hx
    have hb := List.all_eq_true.mp hp x hx
    simp at hb
    simp [hb]
  constructor
  · simp [readProjection, hfind]
  · simp [convertDataset, parse_ok rng hh, readProjection, hfind]

/-- C6 witness: the header-only dataset has no projection file. -/
theorem c6_witness :
    (fsHdrOnly.all fun f => !(lowerName f.name == "prj.adf")) = true ∧
    hasHdr fsHdrOnly = true ∧
    (readProjection fsHdrOnly = none ∧
     convertDataset fsHdrOnly rngZ = Except.ok ⟨createSimpleTiff rngZ, none⟩) :=
  ⟨by decide, by decide, c6_missing_projection fsHdrOnly rngZ (by decide) (by decide)⟩

/-- C7 counterexample: two conversion jobs run through the shared app state:
the first stores its blob in convertedBlob, the second job (different files,
different GDAL outcome) overwrites that same field, so the jobs do not own
their state exclusively. -/
theorem c7_counterexample :
    (convertToTiff ⟨fsHdr, none⟩ (Except.ok [1]) rngZ).convertedBlob = some [1] ∧
    (convertToTiff
        ⟨fsHdrB, (convertToTiff ⟨fsHdr, none⟩ (Except.ok [1]) rngZ).convertedBlob⟩
        (Except.ok [2]) rngZ).convertedBlob = some [2] ∧
    (some [2] : Option (List Nat)) ≠ some [1] := by
  decide

/-- C7 amended: jobs do not own exclusive state: every conversion reads the
module-global uploadedFiles and writes its result into the module-global
convertedBlob, so a successful job replaces whatever an earlier job stored
there, whatever that was; the GDAL library instance is likewise one shared
global reused across jobs. -/
theorem c7_shared_convertedBlob (files : List NamedFile)
    (prev : Option (List Nat)) (g : Except String (List Nat))
    (rng : Nat → Nat) (blob : List Nat)
    (hh : hasHdr files = true)
    (hp : processAdfFiles g files rng = Except.ok blob) :
    (convertToTiff ⟨files, prev⟩ g rng).convertedBlob = some blob := by
  simp [convertToTiff, hh, hp]

/-- C7 witness: a job overwrites a previously stored blob. -/
theorem c7_witness :
    hasHdr fsHdr = true ∧
    processAdfFiles (Except.ok [5]) fsHdr rngZ = Except.ok [5] ∧
    (convertToTiff ⟨fsHdr, some [1, 2]⟩ (Except.ok [5]) rngZ).convertedBlob =
      some [5] :=
  ⟨by decide, rfl,
   c7_shared_convertedBlob fsHdr (some [1, 2]) (Except.ok [5]) rngZ [5]
     (by decide) rfl⟩

/-- C8: the fallback converter is nondeterministic across runs: on one and the
same dataset, a run whose random draws are all 0 and a run whose draws are
all 1 both succeed, but their outputs differ in the first pixel byte
(position 158), so equal inputs do not give equal outputs. -/
theorem c8_nondeterministic_fallback :
    ∃ outA outB, parseAdfFiles fsHdr rngZ = Except.ok outA ∧
      parseAdfFiles fsHdr rngOne = Except.ok outB ∧
      outA[158]? = some 0 ∧ outB[158]? = some 1 ∧ outA ≠ outB := by
  refine ⟨createSimpleTiff rngZ, createSimpleTiff rngOne,
    parse_ok rngZ (by decide), parse_ok rngOne (by decide), ?_, ?_, ?_⟩
  · simpa [rngZ] using createSimpleTiff_get158 rngZ
  · simpa [rngOne] using createSimpleTiff_get158 rngOne
  · intro hEq
    have h0 := createSimpleTiff_get158 rngZ
    have h1 := createSimpleTiff_get158 rngOne
    rw [hEq, h1] at h0
    simp [rngZ, rngOne] at h0

/-- C9: parseAdfFiles fails with the error "Missing hdr.adf file" exactly when
no input file has lowercased name hdr.adf, and it succeeds exactly when such
a file is present, under any letter case and regardless of the contents of
every file. -/
theorem c9_missing_hdr_error_iff (files : List NamedFile) (rng : Nat → Nat) :
    (parseAdfFiles files rng = Except.error "Missing hdr.adf file" ↔
      ¬ ∃ f ∈ files, lowerName f.name = "hdr.adf") ∧
    ((parseAdfFiles files rng).isOk = true ↔
      ∃ f ∈ files, lowerName f.name = "hdr.adf") := by
  have hiff := hasHdr_iff files
  cases hb : hasHdr files with
  | true =>
    rw [parse_ok rng hb]
    rw [hb] at hiff
    constructor
    · simp [← hiff]
    · simp [← hiff, Except.isOk, Except.toBool]
  | false =>
    rw [parse_missing rng hb]
    rw [hb] at hiff
    constructor
    · simp [← hiff]
    · simp [← hiff, Except.isOk, Except.toBool]

/-- C10: on every accepted input the output has one fixed structure: total
length 262302 = 8 + 150 + 512 * 512 bytes; the first 8 bytes are the
little-endian TIFF header (II, 42, IFD offset 8); the single IFD declares
exactly 12 entries (its first two bytes are 12, 0) among them ImageWidth =
ImageHeight = 512, BitsPerSample = 8, Compression = 1 (none), RowsPerStrip =
512 and StripByteCounts = 512 * 512; and one strip of 512 * 512 pixel bytes
starts at offset 158. -/
theorem c10_fixed_structure (rng : Nat → Nat) :
    (createSimpleTiff rng).length = 262302 ∧
    (createSimpleTiff rng).take 8 = [73, 73, 42, 0, 8, 0, 0, 0] ∧
    ifdBytes.take 2 = [12, 0] ∧
    simpleIfdEntries.length = 12 ∧
    (⟨256, 3, 1, 512⟩ ∈ simpleIfdEntries ∧
     ⟨257, 3, 1, 512⟩ ∈ simpleIfdEntries ∧
     ⟨258, 3, 1, 8⟩ ∈ simpleIfdEntries ∧
     ⟨259, 3, 1, 1⟩ ∈ simpleIfdEntries ∧
     ⟨273, 4, 1, 158⟩ ∈ simpleIfdEntries ∧
     ⟨278, 3, 1, 512⟩ ∈ simpleIfdEntries ∧
     ⟨279, 4, 1, 262144⟩ ∈ simpleIfdEntries) ∧
    (createSimpleTiff rng).drop 158 = imageData rng ∧
    (imageData rng).length = 512 * 512 := by
  refine ⟨createSimpleTiff_length rng, ?_, by decide, by decide,
    ⟨by decide, by decide, by decide, by decide, by decide, by decide, by decide⟩,
    createSimpleTiff_drop158 rng, ?_⟩
  · rw [createSimpleTiff_take8]
    decide
  · rw [imageData_length]
    decide

end AdfTiff
